import Mathlib

/-!
# Verification of the libsql Go driver adapter

Shallow embedding of the Go source (the cgo driver file of `libsql-go`).
Native (C-ABI) calls are modelled abstractly: each wrapper operation
records which native calls it makes (as booleans / call logs) and threads
the wrapper's visible state explicitly.  Machine integers are `Int`/`Nat`;
native opaque pointers are `Option Nat` (`none` models a NULL inner
pointer, as produced by `c.inner.inner = nil`).
-/

namespace Libsql

/-! ## Handle close state machines

Each Go `Close` method is embedded as a function from the wrapper's state
to the new state, a flag recording whether the native `*_deinit` call was
invoked, and the returned Go error (`none` = `nil`).
-/

/-- Result of one `Close` call on a handle of state type `α`:
the state afterwards, whether the native deinit was invoked, and the
returned error. -/
structure CloseStep (α : Type) where
  st : α
  deinit : Bool
  err : Option String
  deriving DecidableEq, Repr

/-- State of a `Connector` (Go struct `Connector{inner C.libsql_database_t}`);
`inner = none` models `c.inner.inner == nil`. -/
structure ConnectorH where
  inner : Option Nat
  deriving DecidableEq, Repr

/-- `func (c *Connector) Close() error`: if the inner pointer is nil it
returns nil at once; otherwise it calls `libsql_database_deinit`, nulls
the pointer and returns nil. -/
def connectorClose (c : ConnectorH) : CloseStep ConnectorH :=
  if c.inner = none then
    ⟨c, false, none⟩
  else
    ⟨⟨none⟩, true, none⟩

/-- State of a `statement` (Go struct `statement{inner C.libsql_statement_t}`). -/
structure StatementH where
  inner : Option Nat
  deriving DecidableEq, Repr

/-- `func (stmt *statement) Close() error`: same null-check / deinit /
null-out pattern as `Connector.Close`. -/
def statementClose (s : StatementH) : CloseStep StatementH :=
  if s.inner = none then
    ⟨s, false, none⟩
  else
    ⟨⟨none⟩, true, none⟩

/-- State of a `connection` (Go struct
`connection{inner C.libsql_connection_t; tx C.libsql_transaction_t; in_transaction bool}`).
`tx = none` models the zero value `C.libsql_transaction_t{}`. -/
structure ConnState where
  inner : Option Nat
  tx : Option Nat
  in_transaction : Bool
  deriving DecidableEq, Repr

/-- `func (conn *connection) Close() error`: unconditionally calls
`libsql_connection_deinit(conn.inner)` and returns nil; no field is
changed and no null check guards the deinit. -/
def connectionClose (c : ConnState) : CloseStep ConnState :=
  ⟨c, true, none⟩

/-- State of a `Rows` (Go struct `Rows{inner C.libsql_rows_t}`). -/
structure RowsH where
  inner : Option Nat
  deriving DecidableEq, Repr

/-- `func (rows *Rows) Close() error`: unconditionally calls
`libsql_rows_deinit(rows.inner)` and returns nil; no null check. -/
def rowsClose (r : RowsH) : CloseStep RowsH :=
  ⟨r, true, none⟩

/-- The (deinit-invoked, error) records of `n` successive `Close` calls on
a `Connector`, state threaded through. -/
def connectorCloseTrace : ConnectorH → Nat → List (Bool × Option String)
  | _, 0 => []
  | c, n + 1 =>
    let r := connectorClose c
    (r.deinit, r.err) :: connectorCloseTrace r.st n

/-- The (deinit-invoked, error) records of `n` successive `Close` calls on
a `statement`, state threaded through. -/
def statementCloseTrace : StatementH → Nat → List (Bool × Option String)
  | _, 0 => []
  | s, n + 1 =>
    let r := statementClose s
    (r.deinit, r.err) :: statementCloseTrace r.st n

/-! ## Transactions -/

/-- Go `driver.TxOptions`: `Isolation driver.IsolationLevel` (an int) and
`ReadOnly bool`.  `driver.IsolationLevel(sql.LevelDefault) = 0`. -/
structure TxOptions where
  isolation : Int
  readOnly : Bool
  deriving DecidableEq, Repr

/-- The value returned by the native call
`C.libsql_connection_transaction(conn.inner)`: a transaction handle
together with its `err` field. -/
structure NativeTx where
  handle : Option Nat
  err : Option String
  deriving DecidableEq, Repr

/-- Outcome of `connection.BeginTx`: the connection state afterwards, the
returned error (`none` = a `*transaction` was returned), and whether the
native `libsql_connection_transaction` call was made. -/
structure BeginTxOut where
  conn : ConnState
  err : Option String
  nativeCalled : Bool
  deriving DecidableEq, Repr

/-- `func (conn *connection) BeginTx(ctx, opts)`: rejects read-only and
non-default isolation before any native call; otherwise sets
`conn.in_transaction = true`, stores the native transaction result in
`conn.tx`, and only then checks the native `err` field.  `native` is the
value the native layer would return if called. -/
def beginTx (conn : ConnState) (opts : TxOptions) (native : NativeTx) : BeginTxOut :=
  if opts.readOnly then
    ⟨conn, some "read only transactions are not supported", false⟩
  else if opts.isolation ≠ 0 then
    ⟨conn, some ("isolation level " ++ toString opts.isolation ++ " is not supported"), false⟩
  else
    let conn' : ConnState := { conn with in_transaction := true, tx := native.handle }
    if native.err.isSome then
      ⟨conn', native.err, true⟩
    else
      ⟨conn', none, true⟩

/-- Outcome of `transaction.Commit` / `transaction.Rollback`: the owning
connection's state afterwards, the returned error, and whether the native
commit/rollback call was made. -/
structure TxFinishOut where
  conn : ConnState
  err : Option String
  nativeCalled : Bool
  deriving DecidableEq, Repr

/-- `func (t *transaction) Commit() error`: errors if the connection is
not in a transaction (state untouched); otherwise calls
`libsql_transaction_commit`, resets `conn.tx` to the zero value, clears
the flag and returns nil (the native result is not inspected). -/
def txCommit (conn : ConnState) : TxFinishOut :=
  if conn.in_transaction = false then
    ⟨conn, some "Not inside a transaction", false⟩
  else
    ⟨{ conn with tx := none, in_transaction := false }, none, true⟩

/-- `func (t *transaction) Rollback() error`: same shape as `Commit`,
calling `libsql_transaction_rollback` instead. -/
def txRollback (conn : ConnState) : TxFinishOut :=
  if conn.in_transaction = false then
    ⟨conn, some "Not inside a transaction", false⟩
  else
    ⟨{ conn with tx := none, in_transaction := false }, none, true⟩

/-! ## Execution results -/

/-- Go struct `result{rowsAffected int64}`. -/
structure ResultS where
  rowsAffected : Int
  deriving DecidableEq, Repr

/-- `func (res *result) LastInsertId() (int64, error)`: always `(-1, nil)`. -/
def resultLastInsertId (_ : ResultS) : Int × Option String :=
  (-1, none)

/-- `func (res *result) RowsAffected() (int64, error)`: the stored native
row count, nil error. -/
def resultRowsAffected (r : ResultS) : Int × Option String :=
  (r.rowsAffected, none)

/-! ## Configuration builder (options pattern) -/

/-- Go struct `config`: optional fields, `none` = the Go nil pointer.
`syncInterval` is a `time.Duration` in nanoseconds. -/
structure Config where
  authToken : Option String := none
  readYourWrites : Option Bool := none
  encryptionKey : Option String := none
  syncInterval : Option Int := none
  deriving DecidableEq, Repr

/-- A Go `Option` (`func(*config) error`): it may mutate the config and
return an error.  Embedded as a function producing the new config and the
returned error. -/
def Opt : Type := Config → Config × Option String

/-- `WithAuthToken`: errors if already set or empty, else records it. -/
def withAuthToken (authToken : String) : Opt := fun o =>
  if o.authToken ≠ none then
    (o, some "authToken already set")
  else if authToken = "" then
    (o, some "authToken must not be empty")
  else
    ({ o with authToken := some authToken }, none)

/-- `WithReadYourWrites`: errors if already set, else records the flag. -/
def withReadYourWrites (readYourWrites : Bool) : Opt := fun o =>
  if o.readYourWrites ≠ none then
    (o, some "read your writes already set")
  else
    ({ o with readYourWrites := some readYourWrites }, none)

/-- `WithEncryption`: errors if already set or empty, else records it. -/
def withEncryption (key : String) : Opt := fun o =>
  if o.encryptionKey ≠ none then
    (o, some "encryption key already set")
  else if key = "" then
    (o, some "encryption key must not be empty")
  else
    ({ o with encryptionKey := some key }, none)

/-- `WithSyncInterval`: errors if already set, else records the duration. -/
def withSyncInterval (interval : Int) : Opt := fun o =>
  if o.syncInterval ≠ none then
    (o, some "sync interval already set")
  else
    ({ o with syncInterval := some interval }, none)

/-- The option-application loop of `NewEmbeddedReplicaConnector`: every
option is applied to the threaded config, and the errors of the failing
applications are collected in order (no short-circuit). -/
def applyOpts : List Opt → Config → Config × List String
  | [], c => (c, [])
  | o :: rest, c =>
    let (c', e) := o c
    let (c'', es) := applyOpts rest c'
    (c'', e.toList ++ es)

/-- Go struct `ConnectorOptions`, the marshalled description handed to
`NewConnector` (and from there to `libsql_database_init`). -/
structure ConnectorOptions where
  url : String := ""
  path : String := ""
  authToken : String := ""
  encryptionKey : String := ""
  syncInterval : Nat := 0
  webpki : Bool := false
  notReadYourWrites : Bool := false
  deriving DecidableEq, Repr

/-- `time.Duration.Milliseconds()` followed by the Go `uint64` conversion:
truncated division of nanoseconds by 10^6, then reduction mod 2^64. -/
def durationToUint64Millis (ns : Int) : Nat :=
  (Int.emod (Int.tdiv ns 1000000) (2 ^ 64)).toNat

/-- `NewEmbeddedReplicaConnector(dbPath, primaryUrl, opts...)` up to the
native call: applies all options, joins all collected errors (modelled as
the list of messages) or, when none failed, builds the `ConnectorOptions`
passed on to `NewConnector` with the documented defaults. -/
def newEmbeddedReplicaConnector (dbPath primaryUrl : String) (opts : List Opt) :
    Except (List String) ConnectorOptions :=
  let (cfg, errs) := applyOpts opts {}
  if errs ≠ [] then
    .error errs
  else
    .ok
      { url := primaryUrl
        path := dbPath
        authToken := cfg.authToken.getD ""
        encryptionKey := cfg.encryptionKey.getD ""
        notReadYourWrites := !(cfg.readYourWrites.getD true)
        syncInterval := durationToUint64Millis (cfg.syncInterval.getD 0) }

/-! ## Connection-string parsing (`Driver.OpenConnector`)

The source uses Go's `net/url.Parse` and `strings.TrimSpace`.  Those
stdlib functions are embedded below including their error paths: the
control-byte check, scheme extraction, the colon-in-first-segment check
for scheme-less opaque-position strings, authority parsing with
userinfo validation, host character and percent-escape validation
(with the IPv6 bracket/zone cases), port validation, and path and
fragment escape validation.  Percent-escapes decode to their byte
values represented as code points (a multi-byte UTF-8 escape sequence
is represented bytewise); parse-error payloads carry the core of Go's
message text (the driver forwards parse errors unread, and no theorem
depends on their wording). -/

/-- After any `Connector.Close`, the inner pointer is nil. -/
theorem connectorClose_st (c : ConnectorH) : (connectorClose c).st = ⟨none⟩ := by
  unfold connectorClose
  split
  · next h => cases c; simp_all
  · rfl

/-- After any `statement.Close`, the inner pointer is nil. -/
theorem statementClose_st (s : StatementH) : (statementClose s).st = ⟨none⟩ := by
  unfold statementClose
  split
  · next h => cases s; simp_all
  · rfl

/-- Closing an already-nulled `Connector` repeatedly yields only
no-deinit / no-error records. -/
theorem connectorCloseTrace_closed (n : Nat) :
    connectorCloseTrace ⟨none⟩ n = List.replicate n (false, none) := by
  induction n with
  | zero => rfl
  | succ n ih =>
    simp only [connectorCloseTrace, connectorClose, List.replicate]
    exact congrArg _ ih

/-- Closing an already-nulled `statement` repeatedly yields only
no-deinit / no-error records. -/
theorem statementCloseTrace_closed (n : Nat) :
    statementCloseTrace ⟨none⟩ n = List.replicate n (false, none) := by
  induction n with
  | zero => rfl
  | succ n ih =>
    simp only [statementCloseTrace, statementClose, List.replicate]
    exact congrArg _ ih

/-! ## Claims -/

/-- C10: every execution result's `LastInsertId` is `(-1, nil)` no matter
what was executed, and only `RowsAffected` carries the native row count. -/
theorem C10_lastInsertId_always_minus_one (r : ResultS) :
    resultLastInsertId r = (-1, none) ∧ resultRowsAffected r = (r.rowsAffected, none) :=
  ⟨rfl, rfl⟩

/-- C8: `BeginTx` with a read-only request or a non-default isolation
level returns a configuration error and never reaches the native layer. -/
theorem C8_beginTx_rejects_before_native (conn : ConnState) (opts : TxOptions)
    (native : NativeTx) (h : opts.readOnly = true ∨ opts.isolation ≠ 0) :
    (beginTx conn opts native).err.isSome = true ∧
      (beginTx conn opts native).nativeCalled = false := by
  unfold beginTx
  by_cases hr : opts.readOnly
  · simp [hr]
  · rcases h with h | h
    · exact absurd h hr
    · simp [hr, h]

/-- Witness for C8 at a concrete read-only request. -/
theorem C8_witness :
    (beginTx ⟨some 1, none, false⟩ ⟨0, true⟩ ⟨none, none⟩).err.isSome = true ∧
      (beginTx ⟨some 1, none, false⟩ ⟨0, true⟩ ⟨none, none⟩).nativeCalled = false :=
  C8_beginTx_rejects_before_native ⟨some 1, none, false⟩ ⟨0, true⟩ ⟨none, none⟩ (Or.inl rfl)

/-- C2 (code bug): when the native transaction call fails, `BeginTx`
returns the native error but has already set the in-transaction flag, so
the flag is not left unchanged (it is true although the connection was
not in a transaction before). -/
theorem C2_beginTx_flag_set_despite_native_error :
    (beginTx ⟨some 1, none, false⟩ ⟨0, false⟩ ⟨none, some "native failure"⟩).err =
        some "native failure" ∧
      (beginTx ⟨some 1, none, false⟩ ⟨0, false⟩ ⟨none, some "native failure"⟩).conn.in_transaction =
        true := by
  decide

/-- C7: `Commit` and `Rollback` on a connection outside a transaction
fail with the "Not inside a transaction" error and leave the state
untouched; inside a transaction both succeed, call the native layer,
reset the transaction handle to the zero value and clear the flag. -/
theorem C7_commit_rollback_state (conn : ConnState) :
    (conn.in_transaction = false →
      txCommit conn = ⟨conn, some "Not inside a transaction", false⟩ ∧
        txRollback conn = ⟨conn, some "Not inside a transaction", false⟩) ∧
    (conn.in_transaction = true →
      txCommit conn = ⟨{ conn with tx := none, in_transaction := false }, none, true⟩ ∧
        txRollback conn = ⟨{ conn with tx := none, in_transaction := false }, none, true⟩) := by
  constructor <;> intro h <;> constructor <;> simp [txCommit, txRollback, h]

/-- Witness for C7 at concrete connections in and out of a transaction. -/
theorem C7_witness :
    (txCommit ⟨some 1, none, false⟩ = ⟨⟨some 1, none, false⟩, some "Not inside a transaction", false⟩) ∧
      (txRollback ⟨some 1, none, false⟩ = ⟨⟨some 1, none, false⟩, some "Not inside a transaction", false⟩) ∧
      (txCommit ⟨some 1, some 2, true⟩ = ⟨⟨some 1, none, false⟩, none, true⟩) ∧
      (txRollback ⟨some 1, some 2, true⟩ = ⟨⟨some 1, none, false⟩, none, true⟩) :=
  ⟨((C7_commit_rollback_state ⟨some 1, none, false⟩).1 rfl).1,
   ((C7_commit_rollback_state ⟨some 1, none, false⟩).1 rfl).2,
   ((C7_commit_rollback_state ⟨some 1, some 2, true⟩).2 rfl).1,
   ((C7_commit_rollback_state ⟨some 1, some 2, true⟩).2 rfl).2⟩

/-- C1 counterexample: a second `Close` on a connection handle invokes
the native deinit again — `connection.Close` has no null-out guard, so
close is not a deinit-free no-op the second time for every handle kind. -/
theorem C1_counterexample_connection_second_close :
    (connectionClose (connectionClose ⟨some 1, none, false⟩).st).deinit = true ∧
      (rowsClose (rowsClose ⟨some 1⟩).st).deinit = true := by
  decide

/-- C1 (amended): a second `Close` after a successful `Close` is a
deinit-free no-op returning nil only for `Connector` and `statement`
handles; `connection.Close` and `Rows.Close` return nil on every call but
invoke the native deinit each time. -/
theorem C1_close_idempotence_amended (c : ConnectorH) (s : StatementH)
    (conn : ConnState) (r : RowsH) :
    connectorClose (connectorClose c).st = ⟨(connectorClose c).st, false, none⟩ ∧
      statementClose (statementClose s).st = ⟨(statementClose s).st, false, none⟩ ∧
      connectionClose conn = ⟨conn, true, none⟩ ∧
      rowsClose r = ⟨r, true, none⟩ := by
  refine ⟨?_, ?_, rfl, rfl⟩
  · rw [connectorClose_st]; rfl
  · rw [statementClose_st]; rfl

/-- C6: in any sequence of `Close` calls on a `Connector` or a
`statement`, every call after the first neither invokes the native
deinit nor returns an error (the inner pointer is nulled by the first
release). -/
theorem C6_later_closes_no_deinit_no_error (c : ConnectorH) (s : StatementH) (n : Nat) :
    (connectorCloseTrace c (n + 1)).drop 1 = List.replicate n (false, none) ∧
      (statementCloseTrace s (n + 1)).drop 1 = List.replicate n (false, none) := by
  constructor
  · show (connectorCloseTrace (connectorClose c).st n) = _
    rw [connectorClose_st, connectorCloseTrace_closed]
  · show (statementCloseTrace (statementClose s).st n) = _
    rw [statementClose_st, statementCloseTrace_closed]

/-- Unfolding of the option-application loop on a cons cell. -/
theorem applyOpts_cons (o : Opt) (rest : List Opt) (c : Config) :
    applyOpts (o :: rest) c =
      ((applyOpts rest (o c).1).1, (o c).2.toList ++ (applyOpts rest (o c).1).2) := by
  rcases h : o c with ⟨c', e⟩
  rcases h2 : applyOpts rest c' with ⟨c'', es⟩
  simp [applyOpts, h, h2]

/-- When the auth token is already set, every further `WithAuthToken`
application fails with the duplicate message and leaves the config
unchanged. -/
theorem applyOpts_replicate_authToken_dup (t : String) (m : Nat) (c : Config)
    (hc : c.authToken ≠ none) :
    applyOpts (List.replicate m (withAuthToken t)) c =
      (c, List.replicate m "authToken already set") := by
  induction m with
  | zero => rfl
  | succ m ih =>
    simp only [List.replicate, applyOpts, withAuthToken, if_pos hc, ih]
    rfl

/-- C4: `NewEmbeddedReplicaConnector` applies every option even after a
failure and, when any fail, returns no connector and the joined error
holding every failure in order; a duplicated successful option produces
one duplicate-option message per duplicate application. -/
theorem C4_option_error_aggregation :
    (∀ dbPath primaryUrl : String, ∀ opts : List Opt, (applyOpts opts {}).2 ≠ [] →
      newEmbeddedReplicaConnector dbPath primaryUrl opts = .error (applyOpts opts {}).2) ∧
    (applyOpts [withAuthToken "", withReadYourWrites true, withAuthToken ""] {}).2 =
      ["authToken must not be empty", "authToken must not be empty"] ∧
    (∀ t : String, t ≠ "" → ∀ n : Nat,
      (applyOpts (List.replicate (n + 2) (withAuthToken t)) {}).2 =
        List.replicate (n + 1) "authToken already set") ∧
    (∀ t : String, t ≠ "" →
      newEmbeddedReplicaConnector "p" "u" [withAuthToken t, withAuthToken t] =
        .error ["authToken already set"]) := by
  refine ⟨?_, by decide, ?_, ?_⟩
  · intro dbPath primaryUrl opts h
    unfold newEmbeddedReplicaConnector
    simp only [if_pos h]
  · intro t ht n
    have h1 : withAuthToken t {} = ({ authToken := some t }, none) := by
      simp [withAuthToken, ht]
    have h2 := applyOpts_replicate_authToken_dup t (n + 1)
      { authToken := some t } (by simp)
    rw [List.replicate_succ, applyOpts_cons, h1]
    simp only [h2]
    rfl
  · intro t ht
    have h1 : withAuthToken t {} = ({ authToken := some t }, none) := by
      simp [withAuthToken, ht]
    have h2 : withAuthToken t ({ authToken := some t } : Config) =
        ({ authToken := some t }, some "authToken already set") := by
      simp [withAuthToken]
    have key : applyOpts [withAuthToken t, withAuthToken t] {} =
        ({ authToken := some t }, ["authToken already set"]) := by
      rw [applyOpts_cons, h1]
      simp only [applyOpts_cons, h2]
      rfl
    unfold newEmbeddedReplicaConnector
    rw [key]
    simp

/-- Witness for C4 at a concrete non-empty token and a concrete failing
option list. -/
theorem C4_witness :
    newEmbeddedReplicaConnector "p" "u" [withAuthToken "", withReadYourWrites true, withAuthToken ""] =
        .error ["authToken must not be empty", "authToken must not be empty"] ∧
      (applyOpts (List.replicate 2 (withAuthToken "tok")) {}).2 =
        List.replicate 1 "authToken already set" ∧
      newEmbeddedReplicaConnector "p" "u" [withAuthToken "tok", withAuthToken "tok"] =
        .error ["authToken already set"] :=
  ⟨(C4_option_error_aggregation.1 "p" "u"
      [withAuthToken "", withReadYourWrites true, withAuthToken ""] (by decide)).trans
    (congrArg Except.error (by decide)),
   C4_option_error_aggregation.2.2.1 "tok" (by decide) 0,
   C4_option_error_aggregation.2.2.2 "tok" (by decide)⟩

end Libsql
